import Mathlib

/-!
Verification of `scripts/run_attack_args_helper.py` and
`textattack/constraints/semantics/sentence_encoders/universal_sentence_encoder/multilingual_universal_sentence_encoder.py`
from the TextAttack repository.

The Python module is embedded shallowly: registries become association
lists, the parse functions become functions into `Except String _`
(`Except.error` standing for a raised exception), `eval` of a dynamically
built source string becomes the constructor `PyObj.evalObj` /
`PyObj.evalWith` recording exactly the string that Python would pass to
`eval` (and the local objects in scope it references), and the seeding side
effects of `set_seed` become an explicit event trace.
-/

namespace TextAttack

/-- A Python value relevant to the argument parser: `--random_seed` carries
either the integer default or the raw command-line string (argparse applies
no type converter to it). -/
inductive PyVal where
  | int (n : Int)
  | str (s : String)
deriving DecidableEq, Repr

/-- The result of a Python `eval` on a dynamically assembled source string.
`evalObj e` is `eval(e)` where `e` has no free local variables beyond
imported modules; `evalWith e env` is `eval(e)` in a scope where the local
objects `env` (in order of first reference in `e`) are visible; `attr o a`
is the attribute access `o.a`; `objList l` is a Python list of objects. -/
inductive PyObj where
  | evalObj (expr : String)
  | evalWith (expr : String) (env : List PyObj)
  | attr (obj : PyObj) (field : String)
  | objList (objs : List PyObj)

/-- Association-list lookup standing for Python `dict` indexing;
`(lookup d k).isSome` is the Python test `k in d`. -/
def lookup : List (String × String) → String → Option String
  | [], _ => none
  | (k1, v1) :: rest, key => if k1 == key then some v1 else lookup rest key

/-- The keys of a registry dictionary, in insertion order. -/
def keysOf (d : List (String × String)) : List String := d.map Prod.fst

/-- Python `str.split(sep)` on a list of characters. -/
def splitCh (sep : Char) : List Char → List (List Char)
  | [] => [[]]
  | c :: cs =>
    if c = sep then [] :: splitCh sep cs
    else
      match splitCh sep cs with
      | [] => [[c]]
      | h :: t => (c :: h) :: t

/-- The Python test `':' in s`. -/
def hasColon (s : String) : Bool := s.data.any (fun c => c == ':')

/-- The Python unpacking `a, b = s.split(':')`: `some (a, b)` when the split
has exactly two fields, `none` when unpacking raises a `ValueError`. -/
def splitColon2 (s : String) : Option (String × String) :=
  match splitCh ':' s.data with
  | [a, b] => some (String.mk a, String.mk b)
  | _ => none

/-! Registries from `scripts/run_attack_args_helper.py`.  The source text of
`RECIPE_NAMES` does not parse as a Python dict (a comma is missing after the
`bert-recipe` entry, see `recipeNamesSourceTokens` below); the list here
records the eight entries the literal was evidently meant to contain, so the
functions that consult the registry can still be embedded. -/

def RECIPE_NAMES : List (String × String) := [
  ("alzantot",      "textattack.attack_recipes.Alzantot2018GeneticAlgorithm"),
  ("alz-adjusted",  "textattack.attack_recipes.Alzantot2018GeneticAlgorithmAdjusted"),
  ("deepwordbug",   "textattack.attack_recipes.Gao2018DeepWordBug"),
  ("textfooler",    "textattack.attack_recipes.Jin2019TextFooler"),
  ("tf-adjusted",   "textattack.attack_recipes.Jin2019TextFoolerAdjusted"),
  ("bert-recipe",   "textattack.attack_recipes.BertRecipe"),
  ("mcts",          "textattack.attack_recipes.MCTSRecipe"),
  ("mcts-adjusted", "textattack.attack_recipes.MCTSRecipeAdjusted")]

def MODEL_CLASS_NAMES : List (String × String) := [
  ("bert-ag-news",        "textattack.models.classification.bert.BERTForAGNewsClassification"),
  ("bert-imdb",           "textattack.models.classification.bert.BERTForIMDBSentimentClassification"),
  ("bert-mr",             "textattack.models.classification.bert.BERTForMRSentimentClassification"),
  ("bert-yelp-sentiment", "textattack.models.classification.bert.BERTForYelpSentimentClassification"),
  ("cnn-ag-news",         "textattack.models.classification.cnn.WordCNNForAGNewsClassification"),
  ("cnn-imdb",            "textattack.models.classification.cnn.WordCNNForIMDBSentimentClassification"),
  ("cnn-mr",              "textattack.models.classification.cnn.WordCNNForMRSentimentClassification"),
  ("cnn-yelp-sentiment",  "textattack.models.classification.cnn.WordCNNForYelpSentimentClassification"),
  ("lstm-ag-news",        "textattack.models.classification.lstm.LSTMForAGNewsClassification"),
  ("lstm-imdb",           "textattack.models.classification.lstm.LSTMForIMDBSentimentClassification"),
  ("lstm-mr",             "textattack.models.classification.lstm.LSTMForMRSentimentClassification"),
  ("lstm-yelp-sentiment", "textattack.models.classification.lstm.LSTMForYelpSentimentClassification"),
  ("bert-mnli",           "textattack.models.entailment.bert.BERTForMNLI"),
  ("bert-snli",           "textattack.models.entailment.bert.BERTForSNLI")]

def TRANSFORMATION_CLASS_NAMES : List (String × String) := [
  ("word-swap-embedding",             "textattack.transformations.WordSwapEmbedding"),
  ("word-swap-homoglyph",             "textattack.transformations.WordSwapHomoglyph"),
  ("word-swap-neighboring-char-swap", "textattack.transformations.WordSwapNeighboringCharacterSwap"),
  ("word-swap-language-model",        "textattack.transformations.WordSwapLanguageModel")]

def CONSTRAINT_CLASS_NAMES : List (String × String) := [
  ("embedding",  "textattack.constraints.semantics.WordEmbeddingDistance"),
  ("goog-lm",    "textattack.constraints.semantics.language_models.GoogleLanguageModel"),
  ("bert",       "textattack.constraints.semantics.sentence_encoders.BERT"),
  ("infer-sent", "textattack.constraints.semantics.sentence_encoders.InferSent"),
  ("use",        "textattack.constraints.semantics.sentence_encoders.UniversalSentenceEncoder"),
  ("lang-tool",  "textattack.constraints.syntax.LanguageTool")]

def ATTACK_CLASS_NAMES : List (String × String) := [
  ("beam-search",     "textattack.attack_methods.BeamSearch"),
  ("greedy-word",     "textattack.attack_methods.GreedyWordSwap"),
  ("ga-word",         "textattack.attack_methods.GeneticAlgorithm"),
  ("greedy-word-wir", "textattack.attack_methods.GreedyWordSwapWIR"),
  ("mha",             "textattack.attack_methods.MetropolisHastingsSampling"),
  ("mcts",            "textattack.attack_methods.MonteCarloTreeSearch")]

def GOAL_FUNCTION_CLASS_NAMES : List (String × String) := [
  ("untargeted-classification", "textattack.goal_functions.UntargetedClassification"),
  ("targeted-classification",   "textattack.goal_functions.TargetedClassification")]

/-- The namespace fields of `args` that the parse functions read. -/
structure Args where
  transformation : String
  model : String
  constraints : List String
  goal_function : String
  attack : String
  recipe : Option String
  random_seed : PyVal
deriving DecidableEq, Repr

/-- `parse_transformation_from_args`: split on a colon if present, look the
name up in `TRANSFORMATION_CLASS_NAMES`, and `eval` the assembled
constructor call; an unknown name raises `ValueError`. -/
def parse_transformation_from_args (args : Args) : Except String PyObj :=
  if hasColon args.transformation then
    match splitColon2 args.transformation with
    | some (transformation_name, params) =>
      match lookup TRANSFORMATION_CLASS_NAMES transformation_name with
      | some cls => Except.ok (PyObj.evalObj (cls ++ "(" ++ params ++ ")"))
      | none => Except.error ("Error: unsupported transformation " ++ transformation_name)
    | none => Except.error "ValueError: too many values to unpack"
  else
    match lookup TRANSFORMATION_CLASS_NAMES args.transformation with
    | some cls => Except.ok (PyObj.evalObj (cls ++ "()"))
    | none => Except.error ("Error: unsupported transformation " ++ args.transformation)

/-- `parse_goal_function_from_args(args, model)`: as above over
`GOAL_FUNCTION_CLASS_NAMES`; the evaluated string references the local
`model`. -/
def parse_goal_function_from_args (args : Args) (model : PyObj) : Except String PyObj :=
  if hasColon args.goal_function then
    match splitColon2 args.goal_function with
    | some (goal_function_name, params) =>
      match lookup GOAL_FUNCTION_CLASS_NAMES goal_function_name with
      | some cls => Except.ok (PyObj.evalWith (cls ++ "(model, " ++ params ++ ")") [model])
      | none => Except.error ("Error: unsupported goal_function " ++ goal_function_name)
    | none => Except.error "ValueError: too many values to unpack"
  else
    match lookup GOAL_FUNCTION_CLASS_NAMES args.goal_function with
    | some cls => Except.ok (PyObj.evalWith (cls ++ "(model)") [model])
    | none => Except.error ("Error: unsupported goal_function " ++ args.goal_function)

/-- One iteration of the loop in `parse_constraints_from_args`. -/
def parse_constraint_one (constraint : String) : Except String PyObj :=
  if hasColon constraint then
    match splitColon2 constraint with
    | some (constraint_name, params) =>
      match lookup CONSTRAINT_CLASS_NAMES constraint_name with
      | some cls => Except.ok (PyObj.evalObj (cls ++ "(" ++ params ++ ")"))
      | none => Except.error ("Error: unsupported constraint " ++ constraint_name)
    | none => Except.error "ValueError: too many values to unpack"
  else
    match lookup CONSTRAINT_CLASS_NAMES constraint with
    | some cls => Except.ok (PyObj.evalObj (cls ++ "()"))
    | none => Except.error ("Error: unsupported constraint " ++ constraint)

/-- The accumulation loop of `parse_constraints_from_args`: appends the
object built for each entry in order, aborting with the exception of the
first entry that raises. -/
def parse_constraints_loop : List String → Except String (List PyObj)
  | [] => Except.ok []
  | c :: rest =>
    match parse_constraint_one c with
    | Except.ok obj => (parse_constraints_loop rest).map (fun objs => obj :: objs)
    | Except.error e => Except.error e

/-- `parse_constraints_from_args`: returns `[]` for a falsy constraint list,
otherwise runs the loop. -/
def parse_constraints_from_args (args : Args) : Except String (List PyObj) :=
  if args.constraints.isEmpty then Except.ok []
  else parse_constraints_loop args.constraints

/-- `parse_recipe_from_args(model, args)`: splits `args.recipe` on a colon
if present, looks the name up in `RECIPE_NAMES`, and `eval`s the recipe
constructor applied to the local `model`.  (The final error message is the
literal source string: the `ValueError` on line 240 lacks the `f` prefix.) -/
def parse_recipe_from_args (model : PyObj) (args : Args) : Except String PyObj :=
  match args.recipe with
  | none => Except.error "TypeError: argument of type NoneType is not iterable"
  | some recipe =>
    if hasColon recipe then
      match splitColon2 recipe with
      | some (recipe_name, params) =>
        match lookup RECIPE_NAMES recipe_name with
        | some cls => Except.ok (PyObj.evalWith (cls ++ "(model, " ++ params ++ ")") [model])
        | none => Except.error ("Error: unsupported recipe " ++ recipe_name)
      | none => Except.error "ValueError: too many values to unpack"
    else
      match lookup RECIPE_NAMES recipe with
      | some cls => Except.ok (PyObj.evalWith (cls ++ "(model)") [model])
      | none => Except.error "Invalid recipe \x7bargs.recipe\x7d"

/-- The model-construction block at the top of
`parse_goal_function_and_attack_from_args`. -/
def parse_model (args : Args) : Except String PyObj :=
  if hasColon args.model then
    match splitColon2 args.model with
    | some (model_name, params) =>
      match lookup MODEL_CLASS_NAMES model_name with
      | some cls => Except.ok (PyObj.evalObj (cls ++ "(" ++ params ++ ")"))
      | none => Except.error ("Error: unsupported model " ++ model_name)
    | none => Except.error "ValueError: too many values to unpack"
  else
    match lookup MODEL_CLASS_NAMES args.model with
    | some cls => Except.ok (PyObj.evalObj (cls ++ "()"))
    | none => Except.error ("Error: unsupported model " ++ args.model)

/-- Python truthiness of `args.recipe` (an `Option String`): `None` and the
empty string are falsy. -/
def pyTruthy : Option String → Bool
  | none => false
  | some s => !s.isEmpty

/-- `parse_goal_function_and_attack_from_args`: build the model; if
`args.recipe` is truthy, build the recipe and take its `goal_function`
attribute; otherwise build goal function, transformation and constraints
and `eval` the search-method constructor over them. -/
def parse_goal_function_and_attack_from_args (args : Args) : Except String (PyObj × PyObj) := do
  let model ← parse_model args
  if pyTruthy args.recipe then
    let attack ← parse_recipe_from_args model args
    pure (PyObj.attr attack "goal_function", attack)
  else
    let goal_function ← parse_goal_function_from_args args model
    let transformation ← parse_transformation_from_args args
    let constraints ← parse_constraints_from_args args
    let attack ←
      if hasColon args.attack then
        match splitColon2 args.attack with
        | some (attack_name, params) =>
          match lookup ATTACK_CLASS_NAMES attack_name with
          | some cls => Except.ok (PyObj.evalWith
              (cls ++ "(goal_function, transformation, constraints=constraints, " ++ params ++ ")")
              [goal_function, transformation, PyObj.objList constraints])
          | none => Except.error ("Error: unsupported attack " ++ attack_name)
        | none => Except.error "ValueError: too many values to unpack"
      else
        match lookup ATTACK_CLASS_NAMES args.attack with
        | some cls => Except.ok (PyObj.evalWith
            (cls ++ "(goal_function, transformation, constraints=constraints)")
            [goal_function, transformation, PyObj.objList constraints])
        | none => Except.error ("Error: unsupported attack " ++ args.attack)
    pure (goal_function, attack)

/-- `def str_to_int(s): return sum((ord(c) for c in s))` inside `get_args`,
used to compute the default `--random_seed`. -/
def str_to_int (s : String) : Nat := (s.data.map Char.toNat).sum

/-- The three process-wide random generators seeded by `set_seed`. -/
inductive Generator where
  | pyRandom
  | numpy
  | torch
deriving DecidableEq, Repr

/-- One seeding side effect: which generator was seeded, and with what. -/
structure SeedEvent where
  gen : Generator
  value : PyVal
deriving DecidableEq, Repr

/-- `random.seed(v)`.  Modelled from the Python standard library: `random.seed`
accepts `int` as well as `str` arguments, so it succeeds on both. -/
def random_seed_py (_ : PyVal) : Except String Unit := Except.ok ()

/-- `np.random.seed(v)`.  Modelled from NumPy: the legacy global seed accepts
an integer (or array of integers) and raises a `TypeError` on a `str`. -/
def np_random_seed : PyVal → Except String Unit
  | PyVal.int _ => Except.ok ()
  | PyVal.str _ => Except.error "TypeError: Cannot cast str seed to int64"

/-- `torch.manual_seed(v)`.  Modelled from PyTorch: the seed is coerced with
`int(seed)`, so integers and decimal-digit strings succeed and other strings
raise. -/
def torch_manual_seed : PyVal → Except String Unit
  | PyVal.int _ => Except.ok ()
  | PyVal.str s =>
    match s.toInt? with
    | some _ => Except.ok ()
    | none => Except.error "ValueError: invalid literal for int with base 10"

/-- `set_seed(random_seed)`: seeds the Python `random` module, NumPy and
Torch, in that order, each with the same value; the returned trace records
one `SeedEvent` per generator call that completed. -/
def set_seed (random_seed : PyVal) : Except String (List SeedEvent) := do
  let _ ← random_seed_py random_seed
  let _ ← np_random_seed random_seed
  let _ ← torch_manual_seed random_seed
  pure [⟨Generator.pyRandom, random_seed⟩, ⟨Generator.numpy, random_seed⟩,
        ⟨Generator.torch, random_seed⟩]

/-- The raw command line as argparse sees it: `none` for an option not
supplied, `some raw` for the raw string(s) supplied after the flag.  Only
the options the verified claims read are carried. -/
structure CliInput where
  transformation : Option String
  model : Option String
  constraints : Option (List String)
  goal_function : Option String
  attack : Option String
  recipe : Option String
  random_seed : Option String
deriving DecidableEq, Repr

/-- An option declared with `choices=keys`: an absent option takes the
default, a supplied value outside `keys` makes argparse exit with an
invalid-choice error. -/
def choiceVal (supplied : Option String) (dflt : String) (keys : List String) :
    Except String String :=
  match supplied with
  | none => Except.ok dflt
  | some v =>
    if keys.contains v then Except.ok v
    else Except.error ("argparse: invalid choice: " ++ v)

/-- `--constraints`, declared with `nargs` star and `choices=keys` and
default `[]`: every supplied element must be one of the choices. -/
def choiceList (supplied : Option (List String)) (keys : List String) :
    Except String (List String) :=
  match supplied with
  | none => Except.ok []
  | some vs =>
    if vs.all (fun v => keys.contains v) then Except.ok vs
    else Except.error "argparse: invalid choice"

/-- `--recipe`, declared with `choices=RECIPE_NAMES.keys()` and default
`None`. -/
def choiceOpt (supplied : Option String) (keys : List String) :
    Except String (Option String) :=
  match supplied with
  | none => Except.ok none
  | some v =>
    if keys.contains v then Except.ok (some v)
    else Except.error ("argparse: invalid choice: " ++ v)

/-- The `parser.parse_args()` step of `get_args`: applies each option's
declared choices, defaults and (absence of) type converters.
`--goal_function` and `--attack` declare no `choices=` (their legal values
are only listed in help text), so any string is accepted for them;
`--random_seed` declares no `type=`, so a supplied value stays a raw string
while the default is the integer `str_to_int("TEXTATTACK")`; `--attack` and
`--recipe` share a mutually exclusive group. -/
def buildArgs (cli : CliInput) : Except String Args := do
  if cli.attack.isSome && cli.recipe.isSome then
    Except.error "argparse: argument --recipe: not allowed with argument --attack"
  else
    let transformation ← choiceVal cli.transformation "word-swap-embedding"
        (keysOf TRANSFORMATION_CLASS_NAMES)
    let model ← choiceVal cli.model "bert-yelp-sentiment" (keysOf MODEL_CLASS_NAMES)
    let constraints ← choiceList cli.constraints (keysOf CONSTRAINT_CLASS_NAMES)
    let recipe ← choiceOpt cli.recipe (keysOf RECIPE_NAMES)
    pure { transformation := transformation,
           model := model,
           constraints := constraints,
           goal_function := cli.goal_function.getD "untargeted-classification",
           attack := cli.attack.getD "greedy-word-wir",
           recipe := recipe,
           random_seed :=
             match cli.random_seed with
             | none => PyVal.int (Int.ofNat (str_to_int "TEXTATTACK"))
             | some raw => PyVal.str raw }

/-- `get_args`: parse the command line, then call `set_seed(args.random_seed)`
exactly once before returning; the trace of that one call is returned next
to `args`. -/
def get_args (cli : CliInput) : Except String (Args × List SeedEvent) := do
  let args ← buildArgs cli
  let evts ← set_seed args.random_seed
  pure (args, evts)

/-- The `dest` names of every option `get_args` adds to its parser, in
declaration order (argparse derives `dest` from the first long flag). -/
def getArgsOptionDests : List String :=
  ["transformation", "model", "constraints", "out_dir", "enable_visdom",
   "disable_stdout", "enable_csv", "num_examples", "num_examples_offset",
   "shuffle", "interactive", "attack_n", "parallel", "goal_function",
   "random_seed", "attack", "recipe"]

/-- The items of the configuration surface listed in the specification. -/
inductive ConfigItem where
  | transformationKind
  | goalFunctionKind
  | constraintList
  | searchMethodKind
  | queryBudget
  | randomSeedItem
  | numExamplesItem
  | offsetItem
  | shuffleFlag
  | attackUntilN
  | parallelFlag
deriving DecidableEq, Repr

/-- The argparse `dest` that would hold each configuration item, following
the source's own naming. -/
def destFor : ConfigItem → String
  | ConfigItem.transformationKind => "transformation"
  | ConfigItem.goalFunctionKind => "goal_function"
  | ConfigItem.constraintList => "constraints"
  | ConfigItem.searchMethodKind => "attack"
  | ConfigItem.queryBudget => "query_budget"
  | ConfigItem.randomSeedItem => "random_seed"
  | ConfigItem.numExamplesItem => "num_examples"
  | ConfigItem.offsetItem => "num_examples_offset"
  | ConfigItem.shuffleFlag => "shuffle"
  | ConfigItem.attackUntilN => "attack_n"
  | ConfigItem.parallelFlag => "parallel"

/-- `b` occurs as a prefix of `l` (character-list version). -/
def startsWithCh : List Char → List Char → Bool
  | [], _ => true
  | _ :: _, [] => false
  | a :: as, b :: bs => (a == b) && startsWithCh as bs

/-- `p` occurs as a contiguous substring of `l`. -/
def hasSub (p : List Char) : List Char → Bool
  | [] => p.isEmpty
  | c :: cs => startsWithCh p (c :: cs) || hasSub p cs

/-! Token-level model of the `RECIPE_NAMES` dict literal (lines 9-18 of
`run_attack_args_helper.py`).  Python performs implicit concatenation of
adjacent string-literal tokens before the expression grammar applies; a
dict display then requires `key : value` pairs separated by commas. -/

/-- Tokens of a Python dict display whose keys and values are strings. -/
inductive Tok where
  | lbrace
  | rbrace
  | colon
  | comma
  | str (s : String)
deriving DecidableEq, Repr

/-- Implicit string-literal concatenation: adjacent `str` tokens fuse. -/
def concatStrs : List Tok → List Tok
  | [] => []
  | Tok.str a :: rest =>
    match concatStrs rest with
    | Tok.str b :: rest2 => Tok.str (a ++ b) :: rest2
    | r => Tok.str a :: r
  | t :: rest => t :: concatStrs rest

/-- The `key : value` entry list of a dict display, after the opening
brace: entries are separated by commas (a trailing comma is allowed) and
the display ends with the closing brace; anything else is a syntax error
(`none`). -/
def parseEntries : List Tok → Option (List (String × String))
  | [Tok.rbrace] => some []
  | Tok.str k :: Tok.colon :: Tok.str v :: Tok.comma :: rest =>
    (parseEntries rest).map (fun es => (k, v) :: es)
  | [Tok.str k, Tok.colon, Tok.str v, Tok.rbrace] => some [(k, v)]
  | _ => none

/-- A whole dict display: implicit string concatenation, then the brace -
entry list - brace grammar. -/
def parseDict (ts : List Tok) : Option (List (String × String)) :=
  match concatStrs ts with
  | Tok.lbrace :: rest => parseEntries rest
  | _ => none

/-- The token sequence of the `RECIPE_NAMES` literal exactly as it appears
in the source: note the missing comma between the `bert-recipe` value and
the `mcts` key. -/
def recipeNamesSourceTokens : List Tok := [
  Tok.lbrace,
  Tok.str "alzantot", Tok.colon, Tok.str "textattack.attack_recipes.Alzantot2018GeneticAlgorithm", Tok.comma,
  Tok.str "alz-adjusted", Tok.colon, Tok.str "textattack.attack_recipes.Alzantot2018GeneticAlgorithmAdjusted", Tok.comma,
  Tok.str "deepwordbug", Tok.colon, Tok.str "textattack.attack_recipes.Gao2018DeepWordBug", Tok.comma,
  Tok.str "textfooler", Tok.colon, Tok.str "textattack.attack_recipes.Jin2019TextFooler", Tok.comma,
  Tok.str "tf-adjusted", Tok.colon, Tok.str "textattack.attack_recipes.Jin2019TextFoolerAdjusted", Tok.comma,
  Tok.str "bert-recipe", Tok.colon, Tok.str "textattack.attack_recipes.BertRecipe",
  Tok.str "mcts", Tok.colon, Tok.str "textattack.attack_recipes.MCTSRecipe", Tok.comma,
  Tok.str "mcts-adjusted", Tok.colon, Tok.str "textattack.attack_recipes.MCTSRecipeAdjusted",
  Tok.rbrace]

/-- The same token sequence with the missing comma restored. -/
def recipeNamesFixedTokens : List Tok := [
  Tok.lbrace,
  Tok.str "alzantot", Tok.colon, Tok.str "textattack.attack_recipes.Alzantot2018GeneticAlgorithm", Tok.comma,
  Tok.str "alz-adjusted", Tok.colon, Tok.str "textattack.attack_recipes.Alzantot2018GeneticAlgorithmAdjusted", Tok.comma,
  Tok.str "deepwordbug", Tok.colon, Tok.str "textattack.attack_recipes.Gao2018DeepWordBug", Tok.comma,
  Tok.str "textfooler", Tok.colon, Tok.str "textattack.attack_recipes.Jin2019TextFooler", Tok.comma,
  Tok.str "tf-adjusted", Tok.colon, Tok.str "textattack.attack_recipes.Jin2019TextFoolerAdjusted", Tok.comma,
  Tok.str "bert-recipe", Tok.colon, Tok.str "textattack.attack_recipes.BertRecipe", Tok.comma,
  Tok.str "mcts", Tok.colon, Tok.str "textattack.attack_recipes.MCTSRecipe", Tok.comma,
  Tok.str "mcts-adjusted", Tok.colon, Tok.str "textattack.attack_recipes.MCTSRecipeAdjusted",
  Tok.rbrace]

/-! The multilingual universal sentence encoder constraint. -/

/-- `hub.load(url)`: the TF-Hub handle is identified by the URL it was
loaded from. -/
structure HubModel where
  url : String
deriving DecidableEq, Repr

/-- `hub.load`. -/
def hub_load (url : String) : HubModel := ⟨url⟩

/-- The part of the `SentenceEncoder` base class state set by its
constructor.  Modelled from the spec: the base class itself is outside
`src/`; per the constraint design it records the similarity threshold and
metric it is given. -/
structure SentenceEncoder where
  threshold : ℚ
  metric : String
deriving DecidableEq, Repr

/-- `SentenceEncoder.__init__(threshold=..., metric=...)`: records its
arguments. -/
def sentence_encoder_init (threshold : ℚ) (metric : String) : SentenceEncoder :=
  ⟨threshold, metric⟩

/-- `MultilingualUniversalSentenceEncoder`: the base-class state plus the
loaded TF-Hub model. -/
structure MUSE where
  base : SentenceEncoder
  model : HubModel
deriving DecidableEq, Repr

def museLargeUrl : String :=
  "https://tfhub.dev/google/universal-sentence-encoder-multilingual-large/3"

def museSmallUrl : String :=
  "https://tfhub.dev/google/universal-sentence-encoder-multilingual/3"

/-- `MultilingualUniversalSentenceEncoder.__init__(threshold, large, metric)`:
pass `threshold` and `metric` to the base constructor, pick the TF-Hub URL
by `large`, and load the model. -/
def muse_init (threshold : ℚ) (large : Bool) (metric : String) : MUSE :=
  let tfhub_url := if large then museLargeUrl else museSmallUrl
  { base := sentence_encoder_init threshold metric,
    model := hub_load tfhub_url }

/-- `MultilingualUniversalSentenceEncoder()` with every argument defaulted
(`threshold=0.8, large=False, metric="angular"`). -/
def muse_default : MUSE := muse_init 0.8 false "angular"

/-- The rows of the tensor returned by the underlying TF model call. -/
structure TFTensor where
  rows : List (List ℚ)

/-- `.numpy()` on the returned tensor. -/
def TFTensor.numpy (t : TFTensor) : List (List ℚ) := t.rows

/-- The log of calls made to the underlying TF-Hub model: one entry per
call, holding the full argument list of that call. -/
abbrev CallLog := List (List String)

/-- Calling `self.model(xs)` under a semantics `I` for loaded hub models,
recording the call in the log. -/
def callModel (I : HubModel → List String → TFTensor) (m : HubModel)
    (xs : List String) : StateM CallLog TFTensor := do
  modify (fun log => log ++ [xs])
  pure (I m xs)

/-- `MultilingualUniversalSentenceEncoder.encode(self, sentences)`:
`return self.model(sentences).numpy()`. -/
def MUSE.encode (I : HubModel → List String → TFTensor) (self : MUSE)
    (sentences : List String) : StateM CallLog (List (List ℚ)) := do
  let t ← callModel I self.model sentences
  pure t.numpy

/-! Colon-free (bare-key) variants of the parse functions: the same code
with the parameterized branch removed.  Used to state that for argument
values validated by argparse `choices` the parameterized branch is
unreachable. -/

/-- `parse_transformation_from_args` restricted to its bare-name branch. -/
def parse_transformation_bare (args : Args) : Except String PyObj :=
  match lookup TRANSFORMATION_CLASS_NAMES args.transformation with
  | some cls => Except.ok (PyObj.evalObj (cls ++ "()"))
  | none => Except.error ("Error: unsupported transformation " ++ args.transformation)

/-- The model block of `parse_goal_function_and_attack_from_args` restricted
to its bare-name branch. -/
def parse_model_bare (args : Args) : Except String PyObj :=
  match lookup MODEL_CLASS_NAMES args.model with
  | some cls => Except.ok (PyObj.evalObj (cls ++ "()"))
  | none => Except.error ("Error: unsupported model " ++ args.model)

/-- One constraint, bare-name branch only. -/
def parse_constraint_one_bare (constraint : String) : Except String PyObj :=
  match lookup CONSTRAINT_CLASS_NAMES constraint with
  | some cls => Except.ok (PyObj.evalObj (cls ++ "()"))
  | none => Except.error ("Error: unsupported constraint " ++ constraint)

/-- The constraint loop, bare-name branch only. -/
def parse_constraints_loop_bare : List String → Except String (List PyObj)
  | [] => Except.ok []
  | c :: rest =>
    match parse_constraint_one_bare c with
    | Except.ok obj => (parse_constraints_loop_bare rest).map (fun objs => obj :: objs)
    | Except.error e => Except.error e

/-- `parse_constraints_from_args`, bare-name branch only. -/
def parse_constraints_bare (args : Args) : Except String (List PyObj) :=
  if args.constraints.isEmpty then Except.ok []
  else parse_constraints_loop_bare args.constraints

/-! Concrete inputs used by the witnesses. -/

/-- An empty command line: every option left to its default. -/
def cliDefault : CliInput := ⟨none, none, none, none, none, none, none⟩

/-- The `args` namespace produced by an empty command line. -/
def argsDefault : Args :=
  ⟨"word-swap-embedding", "bert-yelp-sentiment", [], "untargeted-classification",
   "greedy-word-wir", none, PyVal.int 765⟩

/-- The seed-event trace of `set_seed(765)`. -/
def seedEventsDefault : List SeedEvent :=
  [⟨Generator.pyRandom, PyVal.int 765⟩, ⟨Generator.numpy, PyVal.int 765⟩,
   ⟨Generator.torch, PyVal.int 765⟩]

/-- A command line supplying only `--random_seed 42`. -/
def cliSeed42 : CliInput := ⟨none, none, none, none, none, none, some "42"⟩

/-- The `args` namespace produced by `--random_seed 42`: the seed is the
raw string. -/
def argsSeed42 : Args :=
  ⟨"word-swap-embedding", "bert-yelp-sentiment", [], "untargeted-classification",
   "greedy-word-wir", none, PyVal.str "42"⟩

/-- An `args` namespace naming an unregistered transformation and an
unregistered constraint (below the argparse layer, as a caller of the parse
functions could build it). -/
def argsUnknown : Args :=
  ⟨"frobnicate", "bert-yelp-sentiment", ["frobnicate"], "untargeted-classification",
   "greedy-word-wir", none, PyVal.int 765⟩

/-- An `args` namespace using the `name:params` syntax for a registered
transformation and a registered constraint. -/
def argsWithParams : Args :=
  ⟨"word-swap-embedding:max_candidates=5", "bert-yelp-sentiment",
   ["embedding:min_cos_sim=0.9"], "untargeted-classification",
   "greedy-word-wir", none, PyVal.int 765⟩

/-- Recipe-mode `args`: recipe set, other components at some values. -/
def argsRecipeA : Args :=
  ⟨"word-swap-embedding", "bert-mr", [], "untargeted-classification",
   "greedy-word-wir", some "textfooler", PyVal.int 765⟩

/-- Recipe-mode `args` differing from `argsRecipeA` exactly in the
transformation, constraints and goal-function fields. -/
def argsRecipeB : Args :=
  ⟨"word-swap-homoglyph", "bert-mr", ["embedding"], "targeted-classification:2",
   "greedy-word-wir", some "textfooler", PyVal.int 765⟩

/-! Helper lemmas. -/

/-- Inversion of a successful `Except` bind. -/
theorem except_bind_ok {α β : Type} (x : Except String α) (f : α → Except String β) (b : β) :
    (x >>= f) = Except.ok b ↔ ∃ a, x = Except.ok a ∧ f a = Except.ok b := by
  cases x <;> simp [Bind.bind, Except.bind]

/-- A list without the separator splits into one field. -/
theorem splitCh_eq_single (sep : Char) (l : List Char)
    (h : ∀ c ∈ l, ¬c = sep) : splitCh sep l = [l] := by
  induction l with
  | nil => rfl
  | cons c cs ih =>
    have h1 : ¬c = sep := h c (List.mem_cons_self c cs)
    have h2 : ∀ x ∈ cs, ¬x = sep := fun x hx => h x (List.mem_cons_of_mem c hx)
    simp [splitCh, h1, ih h2]

/-- Splitting a list whose first separator occurrence is explicit. -/
theorem splitCh_append (sep : Char) (l1 l2 : List Char)
    (h : ∀ c ∈ l1, ¬c = sep) :
    splitCh sep (l1 ++ sep :: l2) = l1 :: splitCh sep l2 := by
  induction l1 with
  | nil => simp [splitCh]
  | cons c cs ih =>
    have h1 : ¬c = sep := h c (List.mem_cons_self c cs)
    have h2 : ∀ x ∈ cs, ¬x = sep := fun x hx => h x (List.mem_cons_of_mem c hx)
    simp only [List.cons_append, splitCh, if_neg h1]
    rw [show splitCh sep (cs.append (sep :: l2)) = cs :: splitCh sep l2 from ih h2]

/-- `hasColon s = false` gives the pointwise fact on the characters. -/
theorem no_colon_of_hasColon_false {s : String} (h : hasColon s = false) :
    ∀ c ∈ s.data, ¬c = ':' := by
  intro c hc
  simp only [hasColon, List.any_eq_false] at h
  simpa using h c hc

/-- The character data of `name ++ ":" ++ params`. -/
theorem data_append_colon (name params : String) :
    (name ++ ":" ++ params).data = name.data ++ ':' :: params.data := by
  simp [String.data_append]

/-- Splitting `name ++ ":" ++ params` for colon-free `name` and `params`:
the colon test succeeds and the two-way unpacking yields the parts. -/
theorem splitColon2_append (name params : String)
    (hn : hasColon name = false) (hp : hasColon params = false) :
    hasColon (name ++ ":" ++ params) = true ∧
    splitColon2 (name ++ ":" ++ params) = some (name, params) := by
  constructor
  · simp [hasColon, data_append_colon]
  · rw [splitColon2, data_append_colon,
      splitCh_append ':' name.data params.data (no_colon_of_hasColon_false hn),
      splitCh_eq_single ':' params.data (no_colon_of_hasColon_false hp)]

/-- A key present in a registry's key list has a registered value. -/
theorem lookup_of_mem_keys {d : List (String × String)} {k : String}
    (h : k ∈ keysOf d) : ∃ v, lookup d k = some v := by
  induction d with
  | nil => simp [keysOf] at h
  | cons p rest ih =>
    obtain ⟨k1, v1⟩ := p
    by_cases hk : k1 = k
    · exact ⟨v1, by simp [lookup, hk]⟩
    · have hmem : k ∈ keysOf rest := by
        simp only [keysOf, List.map_cons, List.mem_cons] at h
        exact h.resolve_left (by simpa using fun hkk => hk hkk.symm)
      obtain ⟨v, hv⟩ := ih hmem
      exact ⟨v, by simp [lookup, hk, hv]⟩

/-- `choiceVal` only lets through the default or a member of `choices`. -/
theorem choiceVal_ok {s : Option String} {d : String} {keys : List String} {v : String}
    (h : choiceVal s d keys = Except.ok v) : v = d ∨ keys.contains v = true := by
  cases s with
  | none =>
    simp only [choiceVal, Except.ok.injEq] at h
    exact Or.inl h.symm
  | some w =>
    simp only [choiceVal] at h
    by_cases hw : keys.contains w = true
    · rw [if_pos hw] at h
      cases h
      exact Or.inr hw
    · rw [if_neg hw] at h
      cases h

/-- `choiceList` only lets through lists of members of `choices`. -/
theorem choiceList_ok {s : Option (List String)} {keys : List String} {vs : List String}
    (h : choiceList s keys = Except.ok vs) : ∀ v ∈ vs, keys.contains v = true := by
  cases s with
  | none =>
    simp only [choiceList, Except.ok.injEq] at h
    subst h
    intro v hv
    cases hv
  | some ws =>
    simp only [choiceList] at h
    by_cases hw : ws.all (fun v => keys.contains v) = true
    · rw [if_pos hw] at h
      cases h
      rw [List.all_eq_true] at hw
      intro v hv
      exact hw v hv
    · rw [if_neg hw] at h
      cases h

/-- Membership in a registry's key list from a `contains` test. -/
theorem mem_of_contains {l : List String} {a : String}
    (h : l.contains a = true) : a ∈ l := by
  simpa [List.elem_iff] using h

/-- If any element of the list makes the constraint loop raise, the loop
raises. -/
theorem parse_constraints_loop_error {l : List String} {c : String} (hc : c ∈ l)
    {m : String} (hm : parse_constraint_one c = Except.error m) :
    ∃ msg, parse_constraints_loop l = Except.error msg := by
  induction l with
  | nil => cases hc
  | cons a rest ih =>
    cases hres : parse_constraint_one a with
    | error e => exact ⟨e, by simp [parse_constraints_loop, hres]⟩
    | ok obj =>
      rcases List.mem_cons.mp hc with hac | hcr
      · rw [← hac] at hres
        rw [hm] at hres
        cases hres
      · obtain ⟨msg, hmsg⟩ := ih hcr
        exact ⟨msg, by simp [parse_constraints_loop, hres, hmsg, Except.map]⟩

/-- The keys of all five string registries are colon-free. -/
theorem registry_keys_colon_free :
    (keysOf TRANSFORMATION_CLASS_NAMES).all (fun k => !hasColon k) = true ∧
    (keysOf MODEL_CLASS_NAMES).all (fun k => !hasColon k) = true ∧
    (keysOf CONSTRAINT_CLASS_NAMES).all (fun k => !hasColon k) = true ∧
    (keysOf GOAL_FUNCTION_CLASS_NAMES).all (fun k => !hasColon k) = true ∧
    (keysOf RECIPE_NAMES).all (fun k => !hasColon k) = true := by
  refine ⟨?_, ?_, ?_, ?_, ?_⟩ <;> rfl

/-! Claim theorems. -/

/-- Claim C2 (code bug): the `RECIPE_NAMES` dict literal, tokenized exactly
as it stands in the source (with no comma between the `bert-recipe` value
and the `mcts` key), is rejected by the dict-display grammar after implicit
string-literal concatenation — importing the module is a `SyntaxError`, so
no recipe name is mapped at all.  With the single missing comma restored
the literal parses to exactly the eight intended entries. -/
theorem recipe_names_literal_is_a_syntax_error :
    parseDict recipeNamesSourceTokens = none ∧
    parseDict recipeNamesFixedTokens = some RECIPE_NAMES := by
  constructor <;> rfl

/-- Claim C3 counterexample: the configuration surface item "query budget"
has no option in `get_args` — no declared option dest is `query_budget`,
and no dest even mentions `budget`. -/
theorem no_query_budget_option :
    getArgsOptionDests.contains (destFor ConfigItem.queryBudget) = false ∧
    getArgsOptionDests.all (fun d => !hasSub "budget".data d.data) = true := by
  constructor <;> rfl

/-- Claim C3 (amended): `get_args` declares an option for every item of the
specification's configuration surface except the query budget:
transformation kind, goal-function kind, constraint list, search-method
kind, random seed, number of examples, offset, shuffle flag,
attack-until-N-successes flag, and parallel flag. -/
theorem options_cover_surface_except_query_budget :
    ∀ item : ConfigItem, item = ConfigItem.queryBudget ∨
      getArgsOptionDests.contains (destFor item) = true := by
  intro item
  cases item <;> first
    | exact Or.inl rfl
    | exact Or.inr rfl

/-- Claim C6: for every list of sentences,
`MultilingualUniversalSentenceEncoder.encode` makes exactly one call to the
underlying sentence-encoder model, passing the entire sentence list as a
single batch, and returns the numpy conversion of that single call's
output: under any semantics `I` of loaded hub models, the call log after
`encode` holds exactly the one full-list call. -/
theorem encode_batches_sentences_in_one_call
    (I : HubModel → List String → TFTensor) (self : MUSE) (sentences : List String) :
    (MUSE.encode I self sentences).run [] =
      ((I self.model sentences).numpy, [sentences]) := rfl

/-- Claim C10: a `MultilingualUniversalSentenceEncoder` constructed with no
arguments passes threshold `0.8` and metric `"angular"` to its
`SentenceEncoder` base and loads the small multilingual TF-Hub model; the
`large` flag alone selects which of the two models is loaded. -/
theorem muse_defaults_and_model_selection :
    muse_default.base = sentence_encoder_init 0.8 "angular" ∧
    muse_default.base.threshold = 0.8 ∧
    muse_default.base.metric = "angular" ∧
    muse_default.model = hub_load museSmallUrl ∧
    (∀ (threshold : ℚ) (metric : String),
      (muse_init threshold true metric).model = hub_load museLargeUrl ∧
      (muse_init threshold false metric).model = hub_load museSmallUrl) :=
  ⟨rfl, rfl, rfl, rfl, fun _ _ => ⟨rfl, rfl⟩⟩

/-- Claim C1: a configuration value whose kind name is not a key of the
corresponding registry — given bare or as `name:params` — makes the
corresponding parse function raise a `ValueError` (return `Except.error`),
constructing no object, for transformations, goal functions and
constraints alike. -/
theorem unknown_kind_name_raises_value_error
    (args : Args) (model : PyObj) (name params : String)
    (hn : hasColon name = false) (hp : hasColon params = false) :
    (lookup TRANSFORMATION_CLASS_NAMES name = none →
      (args.transformation = name ∨ args.transformation = name ++ ":" ++ params) →
      parse_transformation_from_args args =
        Except.error ("Error: unsupported transformation " ++ name)) ∧
    (lookup GOAL_FUNCTION_CLASS_NAMES name = none →
      (args.goal_function = name ∨ args.goal_function = name ++ ":" ++ params) →
      parse_goal_function_from_args args model =
        Except.error ("Error: unsupported goal_function " ++ name)) ∧
    (lookup CONSTRAINT_CLASS_NAMES name = none →
      (name ∈ args.constraints ∨ (name ++ ":" ++ params) ∈ args.constraints) →
      ∃ msg, parse_constraints_from_args args = Except.error msg) := by
  obtain ⟨hcol, hsplit⟩ := splitColon2_append name params hn hp
  refine ⟨fun hlk hval => ?_, fun hlk hval => ?_, fun hlk hval => ?_⟩
  · rcases hval with hv | hv <;>
      simp [parse_transformation_from_args, hv, hn, hcol, hsplit, hlk]
  · rcases hval with hv | hv <;>
      simp [parse_goal_function_from_args, hv, hn, hcol, hsplit, hlk]
  · have hone : ∃ m, parse_constraint_one name = Except.error m ∧
        parse_constraint_one (name ++ ":" ++ params) = Except.error m := by
      refine ⟨"Error: unsupported constraint " ++ name, ?_, ?_⟩ <;>
        simp [parse_constraint_one, hn, hcol, hsplit, hlk]
    obtain ⟨m, hm1, hm2⟩ := hone
    have hnonempty : args.constraints.isEmpty = false := by
      rcases hval with hv | hv <;>
        exact List.isEmpty_eq_false_iff_exists_mem.mpr ⟨_, hv⟩
    have hloop : ∃ msg, parse_constraints_loop args.constraints = Except.error msg := by
      rcases hval with hv | hv
      · exact parse_constraints_loop_error hv hm1
      · exact parse_constraints_loop_error hv hm2
    obtain ⟨msg, hmsg⟩ := hloop
    exact ⟨msg, by simp [parse_constraints_from_args, hnonempty, hmsg]⟩

/-- Claim C1 witness: the unregistered name `frobnicate`, bare as a
transformation and bare as a constraint entry, is rejected by both parse
functions. -/
theorem unknown_kind_name_witness :
    parse_transformation_from_args argsUnknown =
      Except.error ("Error: unsupported transformation " ++ "frobnicate") ∧
    (∃ msg, parse_constraints_from_args argsUnknown = Except.error msg) := by
  have h := unknown_kind_name_raises_value_error argsUnknown
      (PyObj.evalObj "model") "frobnicate" "" rfl rfl
  exact ⟨h.1 rfl (Or.inl rfl), h.2.2 rfl (Or.inl (by simp [argsUnknown]))⟩

/-- Claim C7: for a recognized kind supplied as `name:params`, each parse
function builds its object by evaluating the free-form parameter string as
code spliced into a constructor call on the registered class — the result
is exactly the `eval` of `{RegisteredClass}({params})` (with the local
`model` also in scope for goal functions), not a structured
configuration. -/
theorem recognized_params_are_evaluated_as_code
    (args : Args) (model : PyObj) (name params cls : String)
    (hn : hasColon name = false) (hp : hasColon params = false) :
    (lookup TRANSFORMATION_CLASS_NAMES name = some cls →
      args.transformation = name ++ ":" ++ params →
      parse_transformation_from_args args =
        Except.ok (PyObj.evalObj (cls ++ "(" ++ params ++ ")"))) ∧
    (lookup GOAL_FUNCTION_CLASS_NAMES name = some cls →
      args.goal_function = name ++ ":" ++ params →
      parse_goal_function_from_args args model =
        Except.ok (PyObj.evalWith (cls ++ "(model, " ++ params ++ ")") [model])) ∧
    (lookup CONSTRAINT_CLASS_NAMES name = some cls →
      args.constraints = [name ++ ":" ++ params] →
      parse_constraints_from_args args =
        Except.ok [PyObj.evalObj (cls ++ "(" ++ params ++ ")")]) := by
  obtain ⟨hcol, hsplit⟩ := splitColon2_append name params hn hp
  refine ⟨fun hlk hval => ?_, fun hlk hval => ?_, fun hlk hval => ?_⟩
  · simp [parse_transformation_from_args, hval, hcol, hsplit, hlk]
  · simp [parse_goal_function_from_args, hval, hcol, hsplit, hlk]
  · simp [parse_constraints_from_args, hval, parse_constraints_loop,
      parse_constraint_one, hcol, hsplit, hlk, Except.map]

/-- Claim C7 witness: `word-swap-embedding:max_candidates=5` constructs the
object `eval("textattack.transformations.WordSwapEmbedding(max_candidates=5)")`,
and `embedding:min_cos_sim=0.9` likewise for the constraint registry. -/
theorem recognized_params_witness :
    parse_transformation_from_args argsWithParams =
      Except.ok (PyObj.evalObj
        ("textattack.transformations.WordSwapEmbedding" ++ "(" ++ "max_candidates=5" ++ ")")) ∧
    parse_constraints_from_args argsWithParams =
      Except.ok [PyObj.evalObj
        ("textattack.constraints.semantics.WordEmbeddingDistance" ++ "(" ++ "min_cos_sim=0.9" ++ ")")] := by
  have h1 := recognized_params_are_evaluated_as_code argsWithParams
      (PyObj.evalObj "model") "word-swap-embedding" "max_candidates=5"
      "textattack.transformations.WordSwapEmbedding" rfl rfl
  have h2 := recognized_params_are_evaluated_as_code argsWithParams
      (PyObj.evalObj "model") "embedding" "min_cos_sim=0.9"
      "textattack.constraints.semantics.WordEmbeddingDistance" rfl rfl
  exact ⟨h1.1 rfl rfl, h2.2.2 rfl rfl⟩

/-- `parse_model` reads only `args.model`. -/
theorem parse_model_congr {a b : Args} (h : a.model = b.model) :
    parse_model a = parse_model b := by
  unfold parse_model
  rw [h]

/-- `parse_recipe_from_args` reads only `args.recipe` from `args`. -/
theorem parse_recipe_congr (m : PyObj) {a b : Args} (h : a.recipe = b.recipe) :
    parse_recipe_from_args m a = parse_recipe_from_args m b := by
  unfold parse_recipe_from_args
  rw [h]

/-- Claim C5: when `args.recipe` is set (truthy), the pair returned by
`parse_goal_function_and_attack_from_args` is determined by the recipe and
model alone — two `args` equal except in their transformation, constraints
and goal-function fields produce identical results — and the returned goal
function is exactly the recipe attack's own `goal_function` attribute. -/
theorem recipe_determines_goal_function_and_attack
    (a b : Args) (hm : a.model = b.model) (hr : a.recipe = b.recipe)
    (_ha : a.attack = b.attack) (_hs : a.random_seed = b.random_seed)
    (htr : pyTruthy a.recipe = true) :
    parse_goal_function_and_attack_from_args a = parse_goal_function_and_attack_from_args b ∧
    ∀ gf atk, parse_goal_function_and_attack_from_args a = Except.ok (gf, atk) →
      gf = PyObj.attr atk "goal_function" := by
  have htrb : pyTruthy b.recipe = true := by rw [← hr]; exact htr
  constructor
  · unfold parse_goal_function_and_attack_from_args
    rw [parse_model_congr hm]
    refine congrArg (fun f => parse_model b >>= f) (funext (fun model => ?_))
    rw [if_pos htr, if_pos htrb, parse_recipe_congr model hr]
  · intro gf atk h
    unfold parse_goal_function_and_attack_from_args at h
    rw [except_bind_ok] at h
    obtain ⟨model, hmodel, h⟩ := h
    rw [if_pos htr, except_bind_ok] at h
    obtain ⟨attack, hattack, h⟩ := h
    simp only [pure, Except.pure, Except.ok.injEq, Prod.mk.injEq] at h
    rw [← h.1, ← h.2]

/-- Claim C5 witness: two `args` with recipe `textfooler` and model
`bert-mr`, differing in transformation, constraints and goal function,
produce identical results. -/
theorem recipe_determines_witness :
    parse_goal_function_and_attack_from_args argsRecipeA =
      parse_goal_function_and_attack_from_args argsRecipeB :=
  (recipe_determines_goal_function_and_attack argsRecipeA argsRecipeB
    rfl rfl rfl rfl rfl).1

/-- A successful `set_seed` run seeded the three generators in order, each
with the one value it was given. -/
theorem set_seed_ok_inversion {v : PyVal} {evts : List SeedEvent}
    (h : set_seed v = Except.ok evts) :
    evts = [⟨Generator.pyRandom, v⟩, ⟨Generator.numpy, v⟩, ⟨Generator.torch, v⟩] := by
  cases v with
  | int n =>
    simp only [set_seed, random_seed_py, np_random_seed, torch_manual_seed,
      Bind.bind, Except.bind, pure, Except.pure, Except.ok.injEq] at h
    exact h.symm
  | str s =>
    simp only [set_seed, random_seed_py, np_random_seed,
      Bind.bind, Except.bind] at h
    cases h

/-- Claim C4: `get_args` calls `set_seed(args.random_seed)` once at
argument-parsing time; on any command line on which `get_args` returns, the
complete seeding trace is one event for the Python `random` module, one for
NumPy and one for Torch, all carrying the same configured seed — two runs
given the same seed start from identical generator state. -/
theorem get_args_seeds_each_generator_once
    (cli : CliInput) (args : Args) (evts : List SeedEvent)
    (h : get_args cli = Except.ok (args, evts)) :
    evts = [⟨Generator.pyRandom, args.random_seed⟩, ⟨Generator.numpy, args.random_seed⟩,
            ⟨Generator.torch, args.random_seed⟩] ∧
    (∀ g : Generator, (evts.filter (fun e => e.gen == g)).length = 1) ∧
    (∀ e ∈ evts, e.value = args.random_seed) := by
  unfold get_args at h
  rw [except_bind_ok] at h
  obtain ⟨a, ha, h⟩ := h
  rw [except_bind_ok] at h
  obtain ⟨evts2, hevts, hpure⟩ := h
  simp only [pure, Except.pure, Except.ok.injEq, Prod.mk.injEq] at hpure
  obtain ⟨haa, hee⟩ := hpure
  subst haa
  subst hee
  have hinv := set_seed_ok_inversion hevts
  subst hinv
  refine ⟨rfl, ?_, ?_⟩
  · intro g
    cases g <;> rfl
  · intro e he
    simp only [List.mem_cons, List.not_mem_nil, or_false] at he
    rcases he with he | he | he <;> rw [he]

/-- Claim C4 witness: the empty command line parses, and its seed trace
seeds the three generators once each with the default seed. -/
theorem get_args_seeds_witness :
    get_args cliDefault = Except.ok (argsDefault, seedEventsDefault) ∧
    seedEventsDefault =
      [⟨Generator.pyRandom, argsDefault.random_seed⟩,
       ⟨Generator.numpy, argsDefault.random_seed⟩,
       ⟨Generator.torch, argsDefault.random_seed⟩] :=
  ⟨rfl, (get_args_seeds_each_generator_once cliDefault argsDefault seedEventsDefault rfl).1⟩

/-- Inversion of a successful `buildArgs`: the choice-validated fields are
the default or a declared choice, and the seed field is the integer default
or the raw supplied string. -/
theorem buildArgs_fields {cli : CliInput} {args : Args}
    (h : buildArgs cli = Except.ok args) :
    (args.transformation = "word-swap-embedding" ∨
      (keysOf TRANSFORMATION_CLASS_NAMES).contains args.transformation = true) ∧
    (args.model = "bert-yelp-sentiment" ∨
      (keysOf MODEL_CLASS_NAMES).contains args.model = true) ∧
    (∀ c ∈ args.constraints, (keysOf CONSTRAINT_CLASS_NAMES).contains c = true) ∧
    args.random_seed = (match cli.random_seed with
      | none => PyVal.int (Int.ofNat (str_to_int "TEXTATTACK"))
      | some raw => PyVal.str raw) := by
  unfold buildArgs at h
  cases hc : (cli.attack.isSome && cli.recipe.isSome) with
  | true =>
    rw [if_pos hc] at h
    cases h
  | false =>
    rw [if_neg (by rw [hc]; exact Bool.false_ne_true)] at h
    rw [except_bind_ok] at h
    obtain ⟨t, ht, h⟩ := h
    rw [except_bind_ok] at h
    obtain ⟨m, hm, h⟩ := h
    rw [except_bind_ok] at h
    obtain ⟨cs, hcs, h⟩ := h
    rw [except_bind_ok] at h
    obtain ⟨r, hrr, h⟩ := h
    simp only [pure, Except.pure, Except.ok.injEq] at h
    rw [← h]
    exact ⟨choiceVal_ok ht, choiceVal_ok hm, choiceList_ok hcs, rfl⟩

/-- Claim C8: the default `--random_seed` is `str_to_int("TEXTATTACK") = 765`
(an integer); any seed supplied on the command line reaches `set_seed` as a
raw string because the option declares no argparse type; NumPy's seed
rejects strings, so `set_seed` raises on every command-line-supplied seed
and only integer seeds (in particular the computed default) are accepted by
all three generators. -/
theorem cli_random_seed_reaches_set_seed_as_string
    (cli : CliInput) (raw : String) (args : Args) :
    str_to_int "TEXTATTACK" = 765 ∧
    (cli.random_seed = some raw → buildArgs cli = Except.ok args →
      args.random_seed = PyVal.str raw) ∧
    (cli.random_seed = none → buildArgs cli = Except.ok args →
      args.random_seed = PyVal.int 765) ∧
    np_random_seed (PyVal.str raw) =
      Except.error "TypeError: Cannot cast str seed to int64" ∧
    set_seed (PyVal.str raw) =
      Except.error "TypeError: Cannot cast str seed to int64" ∧
    (∀ n : Int, set_seed (PyVal.int n) =
      Except.ok [⟨Generator.pyRandom, PyVal.int n⟩, ⟨Generator.numpy, PyVal.int n⟩,
                 ⟨Generator.torch, PyVal.int n⟩]) := by
  refine ⟨rfl, fun hsup hba => ?_, fun hsup hba => ?_, rfl, rfl, fun n => rfl⟩
  · rw [(buildArgs_fields hba).2.2.2, hsup]
  · rw [(buildArgs_fields hba).2.2.2, hsup]
    decide

/-- Claim C8 witness: `--random_seed 42` parses to the string `"42"` in
`args.random_seed`, on which `set_seed` raises NumPy's `TypeError`, while
the default integer seed 765 is accepted by all three generators. -/
theorem cli_random_seed_witness :
    buildArgs cliSeed42 = Except.ok argsSeed42 ∧
    argsSeed42.random_seed = PyVal.str "42" ∧
    set_seed (PyVal.str "42") =
      Except.error "TypeError: Cannot cast str seed to int64" ∧
    set_seed (PyVal.int 765) =
      Except.ok [⟨Generator.pyRandom, PyVal.int 765⟩, ⟨Generator.numpy, PyVal.int 765⟩,
                 ⟨Generator.torch, PyVal.int 765⟩] :=
  ⟨rfl,
   (cli_random_seed_reaches_set_seed_as_string cliSeed42 "42" argsSeed42).2.1 rfl rfl,
   (cli_random_seed_reaches_set_seed_as_string cliSeed42 "42" argsSeed42).2.2.2.2.1,
   (cli_random_seed_reaches_set_seed_as_string cliSeed42 "42" argsSeed42).2.2.2.2.2 765⟩

/-- A key of a colon-free key list is colon-free. -/
theorem hasColon_false_of_key {keys : List String} {k : String}
    (hall : keys.all (fun x => !hasColon x) = true)
    (hk : keys.contains k = true) : hasColon k = false := by
  rw [List.all_eq_true] at hall
  simpa using hall k (mem_of_contains hk)

/-- Without a colon in `args.transformation` the parameterized branch of
`parse_transformation_from_args` is dead code. -/
theorem parse_transformation_eq_bare {args : Args}
    (h : hasColon args.transformation = false) :
    parse_transformation_from_args args = parse_transformation_bare args := by
  simp [parse_transformation_from_args, parse_transformation_bare, h]

/-- Without a colon in `args.model` the parameterized branch of the model
block is dead code. -/
theorem parse_model_eq_bare {args : Args} (h : hasColon args.model = false) :
    parse_model args = parse_model_bare args := by
  simp [parse_model, parse_model_bare, h]

/-- Element-wise colon-freeness removes the parameterized branch from the
constraint loop. -/
theorem parse_constraints_loop_eq_bare {l : List String}
    (h : ∀ c ∈ l, hasColon c = false) :
    parse_constraints_loop l = parse_constraints_loop_bare l := by
  induction l with
  | nil => rfl
  | cons a rest ih =>
    have ha : hasColon a = false := h a (List.mem_cons_self a rest)
    have hrest : ∀ c ∈ rest, hasColon c = false :=
      fun c hc => h c (List.mem_cons_of_mem a hc)
    have hone : parse_constraint_one a = parse_constraint_one_bare a := by
      simp [parse_constraint_one, parse_constraint_one_bare, ha]
    simp only [parse_constraints_loop, parse_constraints_loop_bare, hone, ih hrest]

/-- Element-wise colon-freeness removes the parameterized branch from
`parse_constraints_from_args`. -/
theorem parse_constraints_eq_bare {args : Args}
    (h : ∀ c ∈ args.constraints, hasColon c = false) :
    parse_constraints_from_args args = parse_constraints_bare args := by
  unfold parse_constraints_from_args parse_constraints_bare
  rw [parse_constraints_loop_eq_bare h]

/-- Claim C9: every `args` actually produced by `get_args` has bare registry
keys in `args.transformation`, `args.model` and each element of
`args.constraints` (argparse `choices` validation), none containing a
colon; consequently the parameterized `name:params` branches of
`parse_transformation_from_args`, `parse_constraints_from_args` and the
model block of `parse_goal_function_and_attack_from_args` are unreachable
for such `args`. -/
theorem validated_args_make_param_branches_unreachable
    (cli : CliInput) (args : Args) (evts : List SeedEvent)
    (h : get_args cli = Except.ok (args, evts)) :
    (keysOf TRANSFORMATION_CLASS_NAMES).contains args.transformation = true ∧
    (keysOf MODEL_CLASS_NAMES).contains args.model = true ∧
    (∀ c ∈ args.constraints, (keysOf CONSTRAINT_CLASS_NAMES).contains c = true) ∧
    hasColon args.transformation = false ∧
    hasColon args.model = false ∧
    (∀ c ∈ args.constraints, hasColon c = false) ∧
    parse_transformation_from_args args = parse_transformation_bare args ∧
    parse_model args = parse_model_bare args ∧
    parse_constraints_from_args args = parse_constraints_bare args := by
  unfold get_args at h
  rw [except_bind_ok] at h
  obtain ⟨a, hba, h⟩ := h
  rw [except_bind_ok] at h
  obtain ⟨ev, hev, hpure⟩ := h
  simp only [pure, Except.pure, Except.ok.injEq, Prod.mk.injEq] at hpure
  obtain ⟨haa, -⟩ := hpure
  rw [haa] at hba
  obtain ⟨ht, hm, hcs, -⟩ := buildArgs_fields hba
  have htc : (keysOf TRANSFORMATION_CLASS_NAMES).contains args.transformation = true := by
    rcases ht with h1 | h1
    · rw [h1]; rfl
    · exact h1
  have hmc : (keysOf MODEL_CLASS_NAMES).contains args.model = true := by
    rcases hm with h1 | h1
    · rw [h1]; rfl
    · exact h1
  have htcol : hasColon args.transformation = false :=
    hasColon_false_of_key registry_keys_colon_free.1 htc
  have hmcol : hasColon args.model = false :=
    hasColon_false_of_key registry_keys_colon_free.2.1 hmc
  have hccol : ∀ c ∈ args.constraints, hasColon c = false := fun c hc =>
    hasColon_false_of_key registry_keys_colon_free.2.2.1 (hcs c hc)
  exact ⟨htc, hmc, hcs, htcol, hmcol, hccol,
    parse_transformation_eq_bare htcol, parse_model_eq_bare hmcol,
    parse_constraints_eq_bare hccol⟩

/-- Claim C9 witness: the args produced by the empty command line are bare
keys without a colon, and the parse functions reduce to their bare
branches on them. -/
theorem validated_args_witness :
    hasColon argsDefault.transformation = false ∧
    hasColon argsDefault.model = false ∧
    parse_transformation_from_args argsDefault = parse_transformation_bare argsDefault ∧
    parse_model argsDefault = parse_model_bare argsDefault ∧
    parse_constraints_from_args argsDefault = parse_constraints_bare argsDefault :=
  ⟨(validated_args_make_param_branches_unreachable cliDefault argsDefault
      seedEventsDefault rfl).2.2.2.1,
   (validated_args_make_param_branches_unreachable cliDefault argsDefault
      seedEventsDefault rfl).2.2.2.2.1,
   (validated_args_make_param_branches_unreachable cliDefault argsDefault
      seedEventsDefault rfl).2.2.2.2.2.2.1,
   (validated_args_make_param_branches_unreachable cliDefault argsDefault
      seedEventsDefault rfl).2.2.2.2.2.2.2.1,
   (validated_args_make_param_branches_unreachable cliDefault argsDefault
      seedEventsDefault rfl).2.2.2.2.2.2.2.2⟩

end TextAttack
